import Mathlib

/-!
Shallow embedding of the Mystiko chat server (src/server.py, src/database.py,
src/config.py) and proofs about its claims.

Modelling conventions:
* Python strings are Lean `String`s; `str.lower()` is `lowerStr` (the inputs the
  claims concern are ASCII, where Python lowercasing and SQLite NOCASE agree);
  `str.strip()` is `pyStrip`.
* The SQLite tables are Lean lists inside a `DB` structure.  `COLLATE NOCASE`
  comparisons become comparisons of `lowerStr` images.  `AUTOINCREMENT` row ids
  become an explicit `nextId` counter.  `created_at` columns are omitted: no
  modelled operation reads them.
* The in-memory registry `self.clients` (a Python dict, iterated in insertion
  order) is an association list `Registry` from socket ids to `Session`s.
* Wall-clock timestamps (`datetime.now()...`) are threaded as an explicit
  `now : String` argument.
* Handlers return the sends they perform as ordered `(socket, ServerMsg)`
  pairs, together with the updated registry/database where they mutate one.
-/

set_option maxRecDepth 8192

/-- The six characters removed by Python `str.strip()` with no argument
(restricted to ASCII, which is all the claims exercise). -/
def pyIsSpace (c : Char) : Bool :=
  c = ' ' || c = '\t' || c = '\n' || c = '\r' || c = '\x0b' || c = '\x0c'

/-- Python `str.strip()` on a list of characters. -/
def pyStripList (s : List Char) : List Char :=
  ((s.dropWhile pyIsSpace).reverse.dropWhile pyIsSpace).reverse

/-- Python `str.strip()`. -/
def pyStrip (s : String) : String :=
  ⟨pyStripList s.data⟩

/-- Python `str.lower()` / the SQLite NOCASE fold (they agree on ASCII). -/
def lowerStr (s : String) : String :=
  ⟨s.data.map Char.toLower⟩

/-- Case-insensitive string equality: models both Python
`a.lower() == b.lower()` and SQLite `a = b COLLATE NOCASE`. -/
def eqNoCase (a b : String) : Bool :=
  lowerStr a = lowerStr b

/-- Python slicing `s[:n]`. -/
def pySlice (s : String) (n : Nat) : String :=
  ⟨s.data.take n⟩

/-- Python `str.isalnum()` (ASCII fragment): nonempty and all alphanumeric. -/
def pyIsAlnum (s : List Char) : Bool :=
  !s.isEmpty && s.all Char.isAlphanum

/- ===================== config.py ===================== -/

def MAX_ROOM_NAME_LENGTH : Nat := 30
def MIN_ROOM_NAME_LENGTH : Nat := 3
def MAX_ROOMS_PER_USER : Nat := 5
def MAX_MESSAGE_LENGTH : Nat := 1000
def CHAT_HISTORY_LIMIT : Nat := 50

/- ===================== database.py: tables ===================== -/

/-- A row of the `users` table. -/
structure UserRec where
  username : String
  password : String
deriving Repr, DecidableEq

/-- A row of the `rooms` table. -/
structure RoomRec where
  name : String
  creator : String
  password : Option String
  description : String
deriving Repr, DecidableEq

/-- A row of the `messages` table; `id` is the AUTOINCREMENT primary key. -/
structure MsgRec where
  id : Nat
  room_name : String
  username : String
  content : String
  message_type : String
  timestamp : String
deriving Repr, DecidableEq

/-- The three SQLite tables plus the next fresh message row id. -/
structure DB where
  users : List UserRec
  rooms : List RoomRec
  messages : List MsgRec
  nextId : Nat
deriving Repr, DecidableEq

/- ===================== database.py: operations ===================== -/

/-- `DatabaseManager.user_exists` (case-insensitive). -/
def user_exists (db : DB) (username : String) : Bool :=
  db.users.any (fun u => eqNoCase u.username username)

/-- `DatabaseManager.get_user` (case-insensitive, first matching row). -/
def get_user (db : DB) (username : String) : Option UserRec :=
  db.users.find? (fun u => eqNoCase u.username username)

/-- `DatabaseManager.verify_user`: returns the stored username on a
credential match. -/
def verify_user (db : DB) (username password : String) : Option String :=
  match get_user db username with
  | some u => if u.password = password then some u.username else none
  | none => none

/-- `DatabaseManager.room_exists` (case-insensitive). -/
def room_exists (db : DB) (room_name : String) : Bool :=
  db.rooms.any (fun r => eqNoCase r.name room_name)

/-- `DatabaseManager.get_room` (case-insensitive, first matching row). -/
def get_room (db : DB) (room_name : String) : Option RoomRec :=
  db.rooms.find? (fun r => eqNoCase r.name room_name)

/-- `DatabaseManager.create_room`: the case-insensitive UNIQUE constraint on
`name` turns a duplicate insert into a `False` return; otherwise the row is
appended and the call returns `True`. -/
def create_room (db : DB) (name creator : String) (password : Option String)
    (description : String) : Bool × DB :=
  if db.rooms.any (fun r => eqNoCase r.name name) then
    (false, db)
  else
    (true, { db with rooms := db.rooms ++ [⟨name, creator, password, description⟩] })

/-- `DatabaseManager.delete_room`: deletes the room\x27s messages, then the
room row, and reports whether a room row was actually deleted. -/
def delete_room (db : DB) (room_name : String) : Bool × DB :=
  let deleted := db.rooms.any (fun r => eqNoCase r.name room_name)
  (deleted,
   { db with
     messages := db.messages.filter (fun m => !eqNoCase m.room_name room_name),
     rooms := db.rooms.filter (fun r => !eqNoCase r.name room_name) })

/-- `DatabaseManager.count_user_rooms` (case-insensitive on `creator`). -/
def count_user_rooms (db : DB) (username : String) : Nat :=
  (db.rooms.filter (fun r => eqNoCase r.creator username)).length

/-- `DatabaseManager.save_message`: appends a row stamped `now` with a fresh
AUTOINCREMENT id. -/
def save_message (db : DB) (room_name username content message_type now : String) : DB :=
  { db with
    messages := db.messages ++ [⟨db.nextId, room_name, username, content, message_type, now⟩],
    nextId := db.nextId + 1 }

/-- The sort key of `ORDER BY timestamp DESC, id DESC`: lexicographic on
(timestamp, id), SQLite comparing TEXT timestamps bytewise (modelled as the
lexicographic order on the character list). -/
def msgKey (m : MsgRec) : Lex (List Char × Nat) :=
  toLex (m.timestamp.data, m.id)

/-- The row order produced by `ORDER BY timestamp DESC, id DESC`. -/
def msgDesc (a b : MsgRec) : Prop :=
  msgKey b ≤ msgKey a

instance : DecidableRel msgDesc := fun a b =>
  inferInstanceAs (Decidable (msgKey b ≤ msgKey a))

instance : IsTotal MsgRec msgDesc :=
  ⟨fun a b => le_total (msgKey b) (msgKey a)⟩

instance : IsTrans MsgRec msgDesc :=
  ⟨fun _ _ _ h h2 => le_trans h2 h⟩

/-- `DatabaseManager.get_room_messages`: the room\x27s rows ordered by
`timestamp DESC, id DESC`, limited, then reversed into chronological order. -/
def get_room_messages (db : DB) (room_name : String) (lim : Nat) : List MsgRec :=
  let rows := db.messages.filter (fun m => eqNoCase m.room_name room_name)
  (((rows.insertionSort msgDesc).take lim).reverse)

/- ===================== server.py: registry and wire messages ===================== -/

/-- One entry of `self.clients`: username, remote address, current room. -/
structure Session where
  username : String
  address : String
  room : Option String
deriving Repr, DecidableEq

/-- `self.clients`, a dict iterated in insertion order. -/
abbrev Registry := List (Nat × Session)

/-- Registry lookup by socket id. -/
def regFind (reg : Registry) (sock : Nat) : Option Session :=
  match reg.find? (fun p => p.1 = sock) with
  | some p => some p.2
  | none => none

/-- The JSON objects `send_to_client` serializes, one constructor per
distinct payload shape in server.py. -/
inductive ServerMsg where
  | statusErr (message : String)
  | statusOk (message : String)
  | errMsg (message : String)
  | roomCreated (room_name message : String)
  | roomJoined (room_name creator description message : String)
  | chatHistory (room_name : String) (messages : List MsgRec) (count : Nat)
  | roomUsers (room_name : String) (users : List String)
  | roomLeft (message : String)
  | roomDeleted (message : String)
  | roomDeleteSuccess (message : String)
  | sys (message username timestamp : String)
  | chat (username message room timestamp : String)
  | priv (sender message timestamp : String)
  | privSent (toUser message timestamp : String)
deriving Repr, DecidableEq

/-- An ordered list of performed sends. -/
abbrev Sends := List (Nat × ServerMsg)

/- ===================== server.py: broadcast and helpers ===================== -/

/-- The row `broadcast_to_room` persists when `save_to_db` is set: the dict\x27s
`type` must be `message` or `system`; the stored fields are
`(message_type, username, content)` drawn from the dict. -/
def broadcastSaved : ServerMsg → Option (String × String × String)
  | .sys message username _ => some ("system", username, message)
  | .chat username message _ _ => some ("message", username, message)
  | _ => none

/-- `ChatServer.broadcast_to_room`: under the lock, snapshot the sockets whose
session is bound to `room_name` (excluding `excl`); outside the lock, send the
message to each; finally save it when requested and eligible. -/
def broadcast_to_room (reg : Registry) (db : DB) (room_name : String)
    (msg : ServerMsg) (excl : Option Nat) (save_to_db : Bool) (now : String) :
    Sends × DB :=
  let targets :=
    (reg.filter (fun p => p.2.room == some room_name && some p.1 != excl)).map Prod.fst
  let sends := targets.map (fun s => (s, msg))
  let db1 :=
    if save_to_db then
      match broadcastSaved msg with
      | some (t, u, c) => save_message db room_name u c t now
      | none => db
    else db
  (sends, db1)

/-- `ChatServer.get_room_members`: usernames of sessions bound to the room. -/
def get_room_members (reg : Registry) (room_name : String) : List String :=
  (reg.filter (fun p => p.2.room == some room_name)).map (fun p => p.2.username)

/- ===================== server.py: authentication ===================== -/

/-- `ChatServer.handle_login`: verify credentials, reject a username that is
already logged in (case-insensitive scan of the registry), otherwise welcome
the user and return the stored username. -/
def handle_login (reg : Registry) (db : DB) (sock : Nat)
    (username password : String) : Sends × Option String :=
  match verify_user db username password with
  | none =>
      if user_exists db username then
        ([(sock, .statusErr "Incorrect password")], none)
      else
        ([(sock, .statusErr "User not found. Please register first.")], none)
  | some actual =>
      if reg.any (fun p => eqNoCase p.2.username actual) then
        ([(sock, .statusErr "Already logged in from another session")], none)
      else
        ([(sock, .statusOk ("Welcome back, " ++ actual ++ "!"))], some actual)

/-- The authentication step of `ChatServer.handle_client`: run `handle_login`
and, on success, insert the fresh session into `self.clients`. -/
def login_and_register (reg : Registry) (db : DB) (sock : Nat) (addr : String)
    (username password : String) : Registry × Sends × Option String :=
  let r := handle_login reg db sock username password
  match r.2 with
  | some actual => (reg ++ [(sock, ⟨actual, addr, none⟩)], r.1, some actual)
  | none => (reg, r.1, none)

/- ===================== server.py: room operations ===================== -/

/-- `ChatServer.handle_create_room`: reject private rooms, validate name
length and charset, reject a taken name, enforce the per-user quota unless the
caller is `admin`, then insert. -/
def handle_create_room (db : DB) (sock : Nat) (username : String)
    (room_name_raw : String) (password : Option String) (descRaw : String) :
    DB × Sends :=
  let room_name := pyStrip room_name_raw
  let descStripped := pyStrip descRaw
  let description := if descStripped = "" then "No description" else descStripped
  if (match password with | some p => decide (p ≠ "") | none => false) then
    (db, [(sock, .errMsg "🔒 Private rooms are coming soon! Stay tuned.")])
  else if room_name.length < MIN_ROOM_NAME_LENGTH then
    (db, [(sock, .errMsg ("Room name must be at least "
                          ++ toString MIN_ROOM_NAME_LENGTH ++ " characters"))])
  else if MAX_ROOM_NAME_LENGTH < room_name.length then
    (db, [(sock, .errMsg ("Room name must be less than "
                          ++ toString MAX_ROOM_NAME_LENGTH ++ " characters"))])
  else if !pyIsAlnum (room_name.data.filter (fun c => c ≠ ' ' && c ≠ '-' && c ≠ '_')) then
    (db, [(sock, .errMsg
        "Room name can only contain letters, numbers, spaces, hyphens, and underscores")])
  else if room_exists db room_name then
    (db, [(sock, .errMsg "A room with this name already exists")])
  else if lowerStr username ≠ "admin" ∧ MAX_ROOMS_PER_USER ≤ count_user_rooms db username then
    (db, [(sock, .errMsg ("You can only create " ++ toString MAX_ROOMS_PER_USER
                          ++ " room(s). Delete an existing room first."))])
  else
    let r := create_room db room_name username none (pySlice description 100)
    if r.1 then
      (r.2, [(sock, .roomCreated room_name
                ("Room \"" ++ room_name ++ "\" created successfully!"))])
    else
      (r.2, [(sock, .errMsg "Failed to create room")])

/-- `ChatServer.send_chat_history`: sent only when the history is nonempty. -/
def send_chat_history (db : DB) (sock : Nat) (room_name : String) : Sends :=
  let messages := get_room_messages db room_name CHAT_HISTORY_LIMIT
  if messages.isEmpty then []
  else [(sock, .chatHistory room_name messages messages.length)]

/-- `ChatServer.send_room_users`. -/
def send_room_users (reg : Registry) (sock : Nat) (room_name : String) : Sends :=
  [(sock, .roomUsers room_name (get_room_members reg room_name))]

/-- The straight-line tail of `ChatServer.handle_join_room` after the room has
been fetched and its password check passed: rebind the session to the stored
room name, notify the old room, confirm, send history, notify the new room,
send the user list. -/
def join_room_body (reg : Registry) (db : DB) (sock : Nat) (username : String)
    (room : RoomRec) (now : String) : Registry × DB × Sends :=
  let current_room := match regFind reg sock with
    | some s => s.room
    | none => none
  let reg1 := reg.map (fun p =>
    if p.1 = sock then (p.1, { p.2 with room := some room.name }) else p)
  let r1 := match current_room with
    | some cr =>
        broadcast_to_room reg1 db cr
          (.sys ("🚪 " ++ username ++ " left the room") "System" now) none true now
    | none => ([], db)
  let s2 : Sends := [(sock, .roomJoined room.name room.creator room.description
                        ("Joined room \"" ++ room.name ++ "\"!"))]
  let s3 := send_chat_history r1.2 sock room.name
  let r4 := broadcast_to_room reg1 r1.2 room.name
    (.sys ("👋 " ++ username ++ " joined the room!") "System" now) (some sock) true now
  let s5 := send_room_users reg1 sock room.name
  (reg1, r4.2, r1.1 ++ s2 ++ s3 ++ r4.1 ++ s5)

/-- `ChatServer.handle_join_room`: fetch the room case-insensitively, check
the password of a private room, then run the join body. -/
def handle_join_room (reg : Registry) (db : DB) (sock : Nat) (username : String)
    (room_name_raw : String) (password : Option String) (now : String) :
    Registry × DB × Sends :=
  let room_name := pyStrip room_name_raw
  match get_room db room_name with
  | none =>
      (reg, db, [(sock, .errMsg ("Room \"" ++ room_name ++ "\" does not exist"))])
  | some room =>
      match room.password with
      | some rp =>
          if password ≠ some rp then
            (reg, db, [(sock, .errMsg "Incorrect room password")])
          else
            join_room_body reg db sock username room now
      | none => join_room_body reg db sock username room now

/-- `ChatServer.handle_leave_room`: clear the session\x27s room under the lock
(erroring while still inside the lock if it has none), then notify the old
room and confirm to the caller. -/
def handle_leave_room (reg : Registry) (db : DB) (sock : Nat)
    (username : String) (now : String) : Registry × DB × Sends :=
  match regFind reg sock with
  | none => (reg, db, [])
  | some sess =>
    match sess.room with
    | none => (reg, db, [(sock, .errMsg "You are not in any room")])
    | some current_room =>
      let reg1 := reg.map (fun p =>
        if p.1 = sock then (p.1, { p.2 with room := none }) else p)
      let r1 := broadcast_to_room reg1 db current_room
        (.sys ("🚪 " ++ username ++ " left the room") "System" now) none true now
      (reg1, r1.2,
       r1.1 ++ [(sock, .roomLeft ("Left room \"" ++ current_room ++ "\""))])

/-- Does the kick loop of `handle_delete_room` select this session?  Python:
`info.get(\x27room\x27) and info[\x27room\x27].lower() == room_name.lower()`. -/
def kickMatch (room_name : String) (s : Session) : Bool :=
  match s.room with
  | some r => r ≠ "" && eqNoCase r room_name
  | none => false

/-- `ChatServer.handle_delete_room`.  The two storage snapshots model the fact
that `db.get_room` and `db.delete_room` are separate storage calls: `dbCheck`
is the contents at the existence/authorization check, `dbDelete` the contents
when the deletion statement runs (they coincide in a single-threaded run). -/
def handle_delete_room (reg : Registry) (dbCheck dbDelete : DB) (sock : Nat)
    (username room_name_raw : String) : Registry × DB × Sends :=
  let room_name := pyStrip room_name_raw
  match get_room dbCheck room_name with
  | none =>
      (reg, dbDelete,
       [(sock, .errMsg ("Room \"" ++ room_name ++ "\" does not exist"))])
  | some room =>
      if lowerStr room.creator ≠ lowerStr username ∧ lowerStr username ≠ "admin" then
        (reg, dbDelete, [(sock, .errMsg "Only the room creator can delete this room")])
      else
        let socks := (reg.filter (fun p => kickMatch room_name p.2)).map Prod.fst
        let reg1 := reg.map (fun p =>
          if kickMatch room_name p.2 then (p.1, { p.2 with room := none }) else p)
        let r := delete_room dbDelete room_name
        if r.1 then
          (reg1, r.2,
           (socks.map (fun s => (s, ServerMsg.roomDeleted
              ("Room \"" ++ room_name ++ "\" has been deleted by the creator"))))
           ++ [(sock, .roomDeleteSuccess ("Room \"" ++ room_name ++ "\" has been deleted"))])
        else
          (reg1, r.2, [(sock, .errMsg "Failed to delete room")])

/- ===================== server.py: messaging ===================== -/

/-- `ChatServer.handle_room_message`: silently drop empty content, truncate
long content and append an ellipsis, error if the sender is in no room, else
persist and broadcast to the whole room including the sender. -/
def handle_room_message (reg : Registry) (db : DB) (sock : Nat)
    (username : String) (contentRaw : String) (now : String) : DB × Sends :=
  let content0 := pyStrip contentRaw
  if content0 = "" then (db, [])
  else
    let content := if MAX_MESSAGE_LENGTH < content0.length then
        pySlice content0 MAX_MESSAGE_LENGTH ++ "..."
      else content0
    match regFind reg sock with
    | none => (db, [])
    | some sess =>
      match sess.room with
      | none => (db, [(sock, .errMsg "You must join a room to send messages")])
      | some current_room =>
        let db1 := save_message db current_room username content "message" now
        let r := broadcast_to_room reg db1 current_room
          (.chat username content current_room now) none false now
        (r.2, r.1)

/-- `ChatServer.handle_private_message`: find the first online session whose
username matches the target case-insensitively and deliver to it, echoing a
confirmation to the sender; otherwise report the target offline. -/
def handle_private_message (reg : Registry) (sock : Nat) (username : String)
    (targetRaw contentRaw : String) (now : String) : Sends :=
  let target := pyStrip targetRaw
  let content := pyStrip contentRaw
  if target = "" || content = "" then
    [(sock, .errMsg "Invalid private message format")]
  else
    match reg.find? (fun p => eqNoCase p.2.username target) with
    | some p =>
        [(p.1, .priv username content now),
         (sock, .privSent p.2.username content now)]
    | none =>
        [(sock, .errMsg ("User \x27" ++ target ++ "\x27 is not online"))]

/- ===================== lock/send traces (concurrency discipline) ===================== -/

/-- Events relevant to the lock discipline: acquiring/releasing `self.lock`
and a `send_to_client` call. -/
inductive Ev where
  | acq
  | rel
  | send (sock : Nat) (msg : ServerMsg)
deriving Repr, DecidableEq

/-- `sendFreeLocked d es`: scanning `es` starting at lock depth `d`, every
send happens at depth 0. -/
def sendFreeLocked : Nat → List Ev → Bool
  | _, [] => true
  | d, Ev.acq :: es => sendFreeLocked (d + 1) es
  | d, Ev.rel :: es => sendFreeLocked (d - 1) es
  | d, Ev.send _ _ :: es => decide (d = 0) && sendFreeLocked d es

/-- No send is performed while the lock is held. -/
def noSendWhileLocked (es : List Ev) : Bool :=
  sendFreeLocked 0 es

/-- The event trace of `broadcast_to_room`: the lock wraps only the snapshot
of the target sockets; all sends happen after its release. -/
def broadcast_to_room_trace (reg : Registry) (room_name : String)
    (msg : ServerMsg) (excl : Option Nat) : List Ev :=
  let targets :=
    (reg.filter (fun p => p.2.room == some room_name && some p.1 != excl)).map Prod.fst
  [Ev.acq, Ev.rel] ++ targets.map (fun s => Ev.send s msg)

/-- The event trace of `handle_leave_room`.  The `You are not in any room`
error is sent from inside the `with self.lock:` block, before the context
manager releases the lock. -/
def handle_leave_room_trace (reg : Registry) (sock : Nat) (username now : String) :
    List Ev :=
  match regFind reg sock with
  | none => [Ev.acq, Ev.rel]
  | some sess =>
    match sess.room with
    | none => [Ev.acq, Ev.send sock (.errMsg "You are not in any room"), Ev.rel]
    | some current_room =>
      let reg1 := reg.map (fun p =>
        if p.1 = sock then (p.1, { p.2 with room := none }) else p)
      [Ev.acq, Ev.rel]
      ++ broadcast_to_room_trace reg1 current_room
           (.sys ("🚪 " ++ username ++ " left the room") "System" now) none
      ++ [Ev.send sock (.roomLeft ("Left room \"" ++ current_room ++ "\""))]

/-- The event trace of `handle_login`.  The rejection of an already-logged-in
username is sent from inside the `with self.lock:` block. -/
def handle_login_trace (reg : Registry) (db : DB) (sock : Nat)
    (username password : String) : List Ev :=
  match verify_user db username password with
  | none =>
      if user_exists db username then
        [Ev.send sock (.statusErr "Incorrect password")]
      else
        [Ev.send sock (.statusErr "User not found. Please register first.")]
  | some actual =>
      if reg.any (fun p => eqNoCase p.2.username actual) then
        [Ev.acq, Ev.send sock (.statusErr "Already logged in from another session"), Ev.rel]
      else
        [Ev.acq, Ev.rel, Ev.send sock (.statusOk ("Welcome back, " ++ actual ++ "!"))]

/- ===================== framing layer (receive_from_client) ===================== -/


/-- A UTF-8 continuation byte. -/
def isCont (b : Nat) : Bool :=
  0x80 ≤ b && b < 0xC0

/-- The state machine of strict UTF-8 decoding: `expecting` continuation
bytes remain for the current sequence, `acc` is the partially assembled code
point, `minCp` the smallest code point the sequence length may legally encode
(rejecting overlong forms); surrogates and values above U+10FFFF are also
rejected, as CPython\x27s strict codec rejects them. -/
def utf8DecodeAux : Nat → Nat → Nat → List Nat → Option (List Char)
  | 0, _, _, [] => some []
  | _ + 1, _, _, [] => none
  | 0, _, _, b :: bs =>
    if b < 0x80 then
      (utf8DecodeAux 0 0 0 bs).map (fun cs => Char.ofNat b :: cs)
    else if b < 0xC2 then none
    else if b < 0xE0 then utf8DecodeAux 1 (b - 0xC0) 0x80 bs
    else if b < 0xF0 then utf8DecodeAux 2 (b - 0xE0) 0x800 bs
    else if b < 0xF5 then utf8DecodeAux 3 (b - 0xF0) 0x10000 bs
    else none
  | e + 1, acc, minCp, b :: bs =>
    if isCont b then
      let acc1 := acc * 0x40 + (b - 0x80)
      match e with
      | 0 =>
        if minCp ≤ acc1 ∧ ¬(0xD800 ≤ acc1 ∧ acc1 < 0xE000) ∧ acc1 < 0x110000 then
          (utf8DecodeAux 0 0 0 bs).map (fun cs => Char.ofNat acc1 :: cs)
        else none
      | e1 + 1 => utf8DecodeAux (e1 + 1) acc1 minCp bs
    else none

/-- Strict UTF-8 decoding of one whole chunk, as `bytes.decode(\x27utf-8\x27)`
performs it: `none` models the `UnicodeDecodeError` raised on a chunk that is
not valid UTF-8 in its entirety (truncated trailing sequences included). -/
def utf8Decode (l : List Nat) : Option (List Char) :=
  utf8DecodeAux 0 0 0 l

/-- Split a character buffer into its complete newline-terminated lines and
the trailing text after the last newline, as the repeated
`buffer.split(\x27\n\x27, 1)` extraction does. -/
def splitLines : List Char → List (List Char) × List Char
  | [] => ([], [])
  | c :: cs =>
    let r := splitLines cs
    if c = '\n' then ([] :: r.1, r.2)
    else
      match r.1 with
      | [] => ([], c :: r.2)
      | l :: ls => ((c :: l) :: ls, r.2)

/-- The frames the inner loop of `receive_from_client` returns from the
complete lines currently in the buffer: each line is stripped and empty
results are skipped (`if line.strip():`). -/
def drainFrames (buf : List Char) : List (List Char) :=
  ((splitLines buf).1.map pyStripList).filter (fun l => l ≠ [])

/-- The frame sequence `receive_from_client` extracts over the whole life of
one connection fed the given byte chunks.  Complete lines in the buffer are
returned before `recv` is reached again; a chunk that fails UTF-8 decoding
raises, which the broad handler turns into `None` (the stream ends); chunk
exhaustion models `recv` returning empty (the stream ends).  Trailing bytes
after the last newline are never delivered. -/
def recvFrames : List Char → List (List Nat) → List (List Char)
  | buf, [] => drainFrames buf
  | buf, c :: cs =>
    drainFrames buf ++
      match utf8Decode c with
      | some s => recvFrames ((splitLines buf).2 ++ s) cs
      | none => []

/-- The decoded protocol messages a connection yields under decoder `J`
(`json.loads`, abstracted): the frames that `J` accepts, in order. -/
def decodedMessages {α : Type} (J : List Char → Option α)
    (chunks : List (List Nat)) : List α :=
  (recvFrames [] chunks).filterMap J

/- ===================== helper lemmas ===================== -/

theorem find?_congrPred {α : Type} (l : List α) (p q : α → Bool)
    (h : ∀ a, p a = q a) : l.find? p = l.find? q := by
  induction l with
  | nil => rfl
  | cons a as ih => simp [List.find?, h a, ih]

theorem room_exists_of_get_room {db : DB} {q : String} {r : RoomRec}
    (h : get_room db q = some r) : room_exists db q = true := by
  unfold get_room at h
  unfold room_exists
  refine List.any_eq_true.mpr ⟨r, List.mem_of_find?_eq_some h, ?_⟩
  have hp := List.find?_some h
  exact hp

/-- `regFind` through the pointwise update the handlers perform under the
lock: rebinding the room of the entry keyed `sock` and looking it up. -/
theorem regFind_map_setRoom (reg : Registry) (sock : Nat) (r : Option String) :
    regFind (reg.map (fun p => if p.1 = sock
        then (p.1, { username := p.2.username, address := p.2.address, room := r }) else p)) sock
      = (regFind reg sock).map
          (fun s => { username := s.username, address := s.address, room := r }) := by
  induction reg with
  | nil => rfl
  | cons a as ih =>
    by_cases h : a.1 = sock
    · simp [regFind, List.find?, h]
    · rw [List.map_cons, if_neg h]
      unfold regFind
      rw [List.find?_cons_of_neg _ (by simpa using h),
          List.find?_cons_of_neg _ (by simpa using h)]
      exact ih

/- ===================== claim theorems ===================== -/

/-- C10: a `message` command whose content strips to empty is dropped without
any response, persistence or broadcast, whatever room state the sender has. -/
theorem C10_empty_message (reg : Registry) (db : DB) (sock : Nat)
    (username content now : String) (h : pyStrip content = "") :
    handle_room_message reg db sock username content now = (db, []) := by
  simp [handle_room_message, h]

theorem C10_empty_message_witness :
    handle_room_message [(1, ⟨"alice", "a", some "General"⟩)] ⟨[], [], [], 0⟩
        1 "alice" "  \t " "t" = (⟨[], [], [], 0⟩, []) :=
  C10_empty_message _ _ _ _ _ _ (by decide)

/-- C1: while a session for a username is live, that username\x27s login is the
only accepted one: a first login registers the session, and a second login
resolving to the same username (case-insensitively) is rejected with the
`Already logged in from another session` error, creates no registry entry,
and leaves the whole registry — the first session\x27s entry included —
unchanged. -/
theorem C1_single_session
    (reg : Registry) (db : DB) (s1 s2 : Nat) (a1 a2 : String)
    (u1 p1 u2 p2 actual actual2 : String)
    (hv1 : verify_user db u1 p1 = some actual)
    (hfree : reg.any (fun p => eqNoCase p.2.username actual) = false)
    (hv2 : verify_user db u2 p2 = some actual2)
    (hsame : lowerStr actual2 = lowerStr actual) :
    login_and_register reg db s1 a1 u1 p1
      = (reg ++ [(s1, ⟨actual, a1, none⟩)],
         [(s1, .statusOk ("Welcome back, " ++ actual ++ "!"))], some actual)
    ∧ login_and_register (reg ++ [(s1, ⟨actual, a1, none⟩)]) db s2 a2 u2 p2
      = (reg ++ [(s1, ⟨actual, a1, none⟩)],
         [(s2, .statusErr "Already logged in from another session")], none) := by
  constructor
  · simp [login_and_register, handle_login, hv1, hfree]
  · have hdup : (reg ++ [(s1, (⟨actual, a1, none⟩ : Session))]).any
        (fun p => eqNoCase p.2.username actual2) = true := by
      simp [List.any_append, eqNoCase, hsame]
    simp [login_and_register, handle_login, hv2, hdup]

theorem C1_single_session_witness :
    login_and_register [] ⟨[⟨"Alice", "pw"⟩], [], [], 0⟩ 1 "a1" "alice" "pw"
      = ([(1, ⟨"Alice", "a1", none⟩)],
         [(1, .statusOk "Welcome back, Alice!")], some "Alice")
    ∧ login_and_register [(1, ⟨"Alice", "a1", none⟩)] ⟨[⟨"Alice", "pw"⟩], [], [], 0⟩
          2 "a2" "ALICE" "pw"
      = ([(1, ⟨"Alice", "a1", none⟩)],
         [(2, .statusErr "Already logged in from another session")], none) := by
  have h := C1_single_session [] ⟨[⟨"Alice", "pw"⟩], [], [], 0⟩ 1 2 "a1" "a2"
      "alice" "pw" "ALICE" "pw" "Alice" "Alice" (by decide) (by decide) (by decide) (by decide)
  simpa using h

/-- C5 counterexample: a 1001-character message in a room is persisted and
broadcast with 1000 characters plus an appended `...`, i.e. 1003 characters —
not the 1000-character truncation the claim states, and longer than the
configured maximum. -/
theorem C5_counterexample :
    (handle_room_message [(1, ⟨"alice", "a", some "General"⟩)] ⟨[], [], [], 0⟩
        1 "alice" ⟨List.replicate 1001 'a'⟩ "t").1.messages.map (fun m => m.content.length)
      = [1003]
    ∧ (handle_room_message [(1, ⟨"alice", "a", some "General"⟩)] ⟨[], [], [], 0⟩
        1 "alice" ⟨List.replicate 1001 'a'⟩ "t").2
      = [(1, .chat "alice" ⟨List.replicate 1000 'a' ++ "...".data⟩ "General" "t")]
    ∧ ¬((1003 : Nat) ≤ MAX_MESSAGE_LENGTH) := by
  refine ⟨by decide, by decide, by decide⟩

/-- C5 (amended): a `message` command from a session in a room whose stripped
content exceeds the maximum length is persisted and broadcast as the
1000-character truncation with `...` appended, so its length is exactly the
maximum plus three. -/
theorem C5_truncation (reg : Registry) (db : DB) (sock : Nat)
    (username content now : String) (sess : Session) (room : String)
    (hfind : regFind reg sock = some sess)
    (hroom : sess.room = some room)
    (hlen : MAX_MESSAGE_LENGTH < (pyStrip content).length) :
    (handle_room_message reg db sock username content now).1.messages
      = db.messages ++ [⟨db.nextId, room, username,
          pySlice (pyStrip content) MAX_MESSAGE_LENGTH ++ "...", "message", now⟩]
    ∧ (∀ p ∈ (handle_room_message reg db sock username content now).2,
        p.2 = .chat username (pySlice (pyStrip content) MAX_MESSAGE_LENGTH ++ "...") room now)
    ∧ (pySlice (pyStrip content) MAX_MESSAGE_LENGTH ++ "...").length
        = MAX_MESSAGE_LENGTH + 3 := by
  have hne : pyStrip content ≠ "" := by
    intro h0
    rw [h0] at hlen
    simp [String.length] at hlen
  refine ⟨?_, ?_, ?_⟩
  · simp [handle_room_message, hfind, hroom, hne, hlen, save_message, broadcast_to_room]
  · intro p hp
    simp [handle_room_message, hfind, hroom, hne, hlen, broadcast_to_room] at hp
    obtain ⟨s, hs, rfl⟩ := hp
    rfl
  · have hl : MAX_MESSAGE_LENGTH < (pyStrip content).data.length := hlen
    rw [String.length, String.data_append, List.length_append]
    simp [pySlice, List.length_take]
    omega

theorem C5_truncation_witness :
    (handle_room_message [(1, ⟨"alice", "a", some "General"⟩)] ⟨[], [], [], 0⟩
        1 "alice" ⟨List.replicate 1001 'a'⟩ "t").1.messages
      = [⟨0, "General", "alice",
          pySlice (pyStrip ⟨List.replicate 1001 'a'⟩) MAX_MESSAGE_LENGTH ++ "...",
          "message", "t"⟩]
    ∧ (pySlice (pyStrip ⟨List.replicate 1001 'a'⟩) MAX_MESSAGE_LENGTH ++ "...").length
        = MAX_MESSAGE_LENGTH + 3 := by
  have h := C5_truncation [(1, ⟨"alice", "a", some "General"⟩)] ⟨[], [], [], 0⟩
      1 "alice" ⟨List.replicate 1001 'a'⟩ "t" ⟨"alice", "a", some "General"⟩ "General"
      (by decide) rfl (by decide)
  exact ⟨h.1, h.2.2⟩

/-- C6 counterexample: a private message whose target is the sender\x27s own
username in different case is delivered to the sender\x27s own connection and
echoed — there is no self-target error and delivery does occur. -/
theorem C6_counterexample :
    handle_private_message [(1, ⟨"alice", "a", none⟩)] 1 "alice" "ALICE" "hi" "t"
      = [(1, .priv "alice" "hi" "t"), (1, .privSent "alice" "hi" "t")] := by
  decide

/-- C6 (amended): `handle_private_message` performs no self-target check:
with nonempty target and content, it delivers the message plus a sender echo
whenever some online session matches the target case-insensitively — the
sender\x27s own session included — and reports `is not online` only when no
session matches. -/
theorem C6_private_delivery (reg : Registry) (sock : Nat)
    (username target content now : String)
    (ht : pyStrip target ≠ "") (hc : pyStrip content ≠ "") :
    (∀ q, reg.find? (fun p => eqNoCase p.2.username (pyStrip target)) = some q →
      handle_private_message reg sock username target content now
        = [(q.1, .priv username (pyStrip content) now),
           (sock, .privSent q.2.username (pyStrip content) now)])
    ∧ (reg.find? (fun p => eqNoCase p.2.username (pyStrip target)) = none →
      handle_private_message reg sock username target content now
        = [(sock, .errMsg ("User \x27" ++ pyStrip target ++ "\x27 is not online"))]) := by
  constructor
  · intro q hq
    simp [handle_private_message, ht, hc, hq]
  · intro hq
    simp [handle_private_message, ht, hc, hq]

theorem C6_private_delivery_witness :
    handle_private_message [(1, ⟨"alice", "a", none⟩), (2, ⟨"Bob", "b", none⟩)]
        1 "alice" "BOB" "hi" "t"
      = [(2, .priv "alice" "hi" "t"), (1, .privSent "Bob" "hi" "t")]
    ∧ handle_private_message [(1, ⟨"alice", "a", none⟩)] 1 "alice" "carol" "hi" "t"
      = [(1, .errMsg "User \x27carol\x27 is not online")] := by
  constructor
  · exact (C6_private_delivery [(1, ⟨"alice", "a", none⟩), (2, ⟨"Bob", "b", none⟩)]
      1 "alice" "BOB" "hi" "t" (by decide) (by decide)).1
      (2, ⟨"Bob", "b", none⟩) (by decide)
  · exact (C6_private_delivery [(1, ⟨"alice", "a", none⟩)]
      1 "alice" "carol" "hi" "t" (by decide) (by decide)).2 (by decide)

theorem sendFreeLocked_sends_append {α : Type} (g : α → Ev)
    (h : ∀ a, ∃ s m, g a = Ev.send s m) (l : List α) (es : List Ev) :
    sendFreeLocked 0 (l.map g ++ es) = sendFreeLocked 0 es := by
  induction l with
  | nil => rfl
  | cons a as ih =>
    obtain ⟨s, m, hg⟩ := h a
    simp [hg, sendFreeLocked, ih]

theorem sendFreeLocked_sends {α : Type} (g : α → Ev)
    (h : ∀ a, ∃ s m, g a = Ev.send s m) (l : List α) :
    sendFreeLocked 0 (l.map g) = true := by
  simpa using sendFreeLocked_sends_append g h l []

/-- C2 counterexample: two code paths send to a client while the registry
lock is held — the `You are not in any room` error of `handle_leave_room` and
the `Already logged in from another session` rejection of `handle_login`. -/
theorem C2_counterexample :
    noSendWhileLocked (handle_leave_room_trace [(1, ⟨"bob", "a", none⟩)] 1 "bob" "t")
      = false
    ∧ noSendWhileLocked (handle_login_trace [(1, ⟨"Alice", "a", none⟩)]
        ⟨[⟨"Alice", "pw"⟩], [], [], 0⟩ 2 "alice" "pw") = false := by
  refine ⟨by decide, by decide⟩

/-- C2 (amended): `broadcast_to_room` snapshots its targets under the lock
and performs every send after release, and the success paths of
`handle_leave_room` and `handle_login` send only outside the lock; but the
not-in-a-room error of `handle_leave_room` and the duplicate-login rejection
of `handle_login` are sent while the lock is held. -/
theorem C2_lock_discipline (reg : Registry) (db : DB) (room : String)
    (msg : ServerMsg) (excl : Option Nat) (sock : Nat)
    (username password now : String) :
    noSendWhileLocked (broadcast_to_room_trace reg room msg excl) = true
    ∧ (∀ sess, regFind reg sock = some sess → sess.room = none →
        noSendWhileLocked (handle_leave_room_trace reg sock username now) = false)
    ∧ (∀ actual, verify_user db username password = some actual →
        reg.any (fun p => eqNoCase p.2.username actual) = true →
        noSendWhileLocked (handle_login_trace reg db sock username password) = false)
    ∧ (∀ sess r, regFind reg sock = some sess → sess.room = some r →
        noSendWhileLocked (handle_leave_room_trace reg sock username now) = true)
    ∧ (∀ actual, verify_user db username password = some actual →
        reg.any (fun p => eqNoCase p.2.username actual) = false →
        noSendWhileLocked (handle_login_trace reg db sock username password) = true) := by
  refine ⟨?_, ?_, ?_, ?_, ?_⟩
  · simp only [noSendWhileLocked, broadcast_to_room_trace]
    exact sendFreeLocked_sends _ (fun a => ⟨a, msg, rfl⟩) _
  · intro sess hs hr
    simp [noSendWhileLocked, handle_leave_room_trace, hs, hr, sendFreeLocked]
  · intro actual hv hdup
    simp [noSendWhileLocked, handle_login_trace, hv, hdup, sendFreeLocked]
  · intro sess r hs hr
    simp only [noSendWhileLocked, handle_leave_room_trace, hs, hr, broadcast_to_room_trace,
               List.append_assoc]
    rw [show ([Ev.acq, Ev.rel] : List Ev) ++ ([Ev.acq, Ev.rel] ++ _) = _ from rfl]
    exact sendFreeLocked_sends_append _ (fun a => ⟨a, _, rfl⟩) _ _
  · intro actual hv hfree
    simp [noSendWhileLocked, handle_login_trace, hv, hfree, sendFreeLocked]

theorem C2_lock_discipline_witness :
    noSendWhileLocked (broadcast_to_room_trace [(1, ⟨"bob", "a", some "General"⟩)]
        "General" (.errMsg "x") none) = true
    ∧ noSendWhileLocked (handle_leave_room_trace [(1, ⟨"bob", "a", some "General"⟩)]
        1 "bob" "t") = true
    ∧ noSendWhileLocked (handle_leave_room_trace [(2, ⟨"carol", "c", none⟩)]
        2 "carol" "t") = false
    ∧ noSendWhileLocked (handle_login_trace [(1, ⟨"Alice", "a", none⟩)]
        ⟨[⟨"Alice", "pw"⟩], [], [], 0⟩ 2 "alice" "pw") = false
    ∧ noSendWhileLocked (handle_login_trace []
        ⟨[⟨"Alice", "pw"⟩], [], [], 0⟩ 2 "alice" "pw") = true := by
  refine ⟨?_, ?_, ?_, ?_, ?_⟩
  · exact (C2_lock_discipline [(1, ⟨"bob", "a", some "General"⟩)] ⟨[], [], [], 0⟩
      "General" (.errMsg "x") none 1 "bob" "pw" "t").1
  · exact (C2_lock_discipline [(1, ⟨"bob", "a", some "General"⟩)] ⟨[], [], [], 0⟩
      "General" (.errMsg "x") none 1 "bob" "pw" "t").2.2.2.1
      ⟨"bob", "a", some "General"⟩ "General" (by decide) rfl
  · exact (C2_lock_discipline [(2, ⟨"carol", "c", none⟩)] ⟨[], [], [], 0⟩
      "General" (.errMsg "x") none 2 "carol" "pw" "t").2.1
      ⟨"carol", "c", none⟩ (by decide) rfl
  · exact (C2_lock_discipline [(1, ⟨"Alice", "a", none⟩)] ⟨[⟨"Alice", "pw"⟩], [], [], 0⟩
      "General" (.errMsg "x") none 2 "alice" "pw" "t").2.2.1
      "Alice" (by decide) (by decide)
  · exact (C2_lock_discipline [] ⟨[⟨"Alice", "pw"⟩], [], [], 0⟩
      "General" (.errMsg "x") none 2 "alice" "pw" "t").2.2.2.2
      "Alice" (by decide) (by decide)

/-- C7: room names are case-insensitive with first-insert case preserved:
with a room stored as `Chess`, `create_room` for `chess` fails name-taken and
inserts nothing, while `join_room` for `CHESS` succeeds and binds the session
to the stored canonical-case name `Chess`. -/
theorem C7_room_case_insensitive (db : DB) (reg : Registry) (sock : Nat)
    (username desc now : String) (room : RoomRec)
    (hr : get_room db "chess" = some room)
    (hname : room.name = "Chess")
    (hpw : room.password = none) :
    handle_create_room db sock username "chess" none desc
      = (db, [(sock, .errMsg "A room with this name already exists")])
    ∧ (∀ sess, regFind reg sock = some sess →
        regFind (handle_join_room reg db sock username "CHESS" none now).1 sock
          = some { sess with room := some "Chess" }) := by
  have hex : room_exists db "chess" = true := room_exists_of_get_room hr
  constructor
  · have hps : pyStrip "chess" = "chess" := rfl
    have h1 : ¬("chess".length < MIN_ROOM_NAME_LENGTH) := by decide
    have h2 : ¬(MAX_ROOM_NAME_LENGTH < "chess".length) := by decide
    simp [handle_create_room, hps, h1, h2, hex]
    decide
  · intro sess hsf
    have hpred : ∀ r : RoomRec, eqNoCase r.name "CHESS" = eqNoCase r.name "chess" := by
      intro r
      simp [eqNoCase, show lowerStr "CHESS" = lowerStr "chess" from by decide]
    have hCH : get_room db "CHESS" = some room := by
      unfold get_room at hr ⊢
      rw [find?_congrPred _ _ _ hpred]
      exact hr
    have hps : pyStrip "CHESS" = "CHESS" := rfl
    simp only [handle_join_room, hps, hCH, hpw, join_room_body]
    rw [regFind_map_setRoom]
    simp [hsf, hname]

theorem C7_room_case_insensitive_witness :
    handle_create_room ⟨[], [⟨"Chess", "bob", none, "d"⟩], [], 0⟩ 1 "carol" "chess" none ""
      = (⟨[], [⟨"Chess", "bob", none, "d"⟩], [], 0⟩,
         [(1, .errMsg "A room with this name already exists")])
    ∧ regFind (handle_join_room [(1, ⟨"carol", "a", none⟩)]
        ⟨[], [⟨"Chess", "bob", none, "d"⟩], [], 0⟩ 1 "carol" "CHESS" none "t").1 1
      = some ⟨"carol", "a", some "Chess"⟩ := by
  have h := C7_room_case_insensitive ⟨[], [⟨"Chess", "bob", none, "d"⟩], [], 0⟩
      [(1, ⟨"carol", "a", none⟩)] 1 "carol" "" "t" ⟨"Chess", "bob", none, "d"⟩
      (by decide) rfl rfl
  exact ⟨h.1, h.2 ⟨"carol", "a", none⟩ (by decide)⟩

/-- C8: a user other than `admin` (case-insensitively) who has already
created the configured maximum number of rooms gets the quota error on the
next otherwise-valid `create_room`, with no insert; a user lowering to
`admin` is never subject to the quota and the insert proceeds. -/
theorem C8_quota (db : DB) (sock : Nat) (u1 u2 name d : String)
    (hmin : MIN_ROOM_NAME_LENGTH ≤ (pyStrip name).length)
    (hmax : (pyStrip name).length ≤ MAX_ROOM_NAME_LENGTH)
    (hchar : pyIsAlnum ((pyStrip name).data.filter
        (fun c => c ≠ ' ' && c ≠ '-' && c ≠ '_')) = true)
    (hfree : room_exists db (pyStrip name) = false) :
    (lowerStr u1 ≠ "admin" → count_user_rooms db u1 = MAX_ROOMS_PER_USER →
      handle_create_room db sock u1 name none d
        = (db, [(sock, .errMsg ("You can only create " ++ toString MAX_ROOMS_PER_USER
            ++ " room(s). Delete an existing room first."))]))
    ∧ (lowerStr u2 = "admin" →
      handle_create_room db sock u2 name none d
        = ({ db with rooms := db.rooms ++ [⟨pyStrip name, u2, none,
              pySlice (if pyStrip d = "" then "No description" else pyStrip d) 100⟩] },
           [(sock, .roomCreated (pyStrip name)
              ("Room \"" ++ pyStrip name ++ "\" created successfully!"))])) := by
  have h1 : ¬((pyStrip name).length < MIN_ROOM_NAME_LENGTH) := by omega
  have h2 : ¬(MAX_ROOM_NAME_LENGTH < (pyStrip name).length) := by omega
  have hfree2 : (db.rooms.any (fun r => eqNoCase r.name (pyStrip name))) = false := hfree
  simp only [ne_eq, decide_not] at hchar
  constructor
  · intro hadm hcount
    have hq : lowerStr u1 ≠ "admin" ∧ MAX_ROOMS_PER_USER ≤ count_user_rooms db u1 :=
      ⟨hadm, by omega⟩
    simp [handle_create_room, h1, h2, hchar, hfree, hq]
  · intro hadm
    have hq : ¬(lowerStr u2 ≠ "admin" ∧ MAX_ROOMS_PER_USER ≤ count_user_rooms db u2) := by
      simp [hadm]
    simp [handle_create_room, h1, h2, hchar, hfree, hq, create_room, hfree2]

theorem C8_quota_witness :
    handle_create_room ⟨[], [⟨"Ar", "carol", none, "d"⟩, ⟨"Br", "carol", none, "d"⟩,
        ⟨"Cr", "carol", none, "d"⟩, ⟨"Dr", "carol", none, "d"⟩,
        ⟨"Er", "carol", none, "d"⟩], [], 0⟩ 1 "Carol" "newroom" none ""
      = (⟨[], [⟨"Ar", "carol", none, "d"⟩, ⟨"Br", "carol", none, "d"⟩,
          ⟨"Cr", "carol", none, "d"⟩, ⟨"Dr", "carol", none, "d"⟩,
          ⟨"Er", "carol", none, "d"⟩], [], 0⟩,
         [(1, .errMsg "You can only create 5 room(s). Delete an existing room first.")])
    ∧ handle_create_room ⟨[], [⟨"Ar", "carol", none, "d"⟩, ⟨"Br", "carol", none, "d"⟩,
        ⟨"Cr", "carol", none, "d"⟩, ⟨"Dr", "carol", none, "d"⟩,
        ⟨"Er", "carol", none, "d"⟩], [], 0⟩ 1 "Admin" "newroom" none ""
      = (⟨[], [⟨"Ar", "carol", none, "d"⟩, ⟨"Br", "carol", none, "d"⟩,
          ⟨"Cr", "carol", none, "d"⟩, ⟨"Dr", "carol", none, "d"⟩,
          ⟨"Er", "carol", none, "d"⟩, ⟨"newroom", "Admin", none, "No description"⟩], [], 0⟩,
         [(1, .roomCreated "newroom" "Room \"newroom\" created successfully!")]) := by
  have h := C8_quota ⟨[], [⟨"Ar", "carol", none, "d"⟩, ⟨"Br", "carol", none, "d"⟩,
      ⟨"Cr", "carol", none, "d"⟩, ⟨"Dr", "carol", none, "d"⟩,
      ⟨"Er", "carol", none, "d"⟩], [], 0⟩ 1 "Carol" "Admin" "newroom" ""
      (by decide) (by decide) (by decide) (by decide)
  exact ⟨h.1 (by decide) (by decide), h.2 (by decide)⟩

/-- C9: when the storage deletion step of `delete_room` removes no room row
after the creator/admin authorization check passed, the caller gets only the
generic `Failed to delete room` error, the kicked sessions receive no
forced-removal notice, and the registry mutation — every session in the room
has had its room field cleared — is not rolled back. -/
theorem C9_delete_room_storage_failure (reg : Registry) (dbCheck dbDelete : DB)
    (sock : Nat) (username nameRaw : String) (room : RoomRec)
    (hg : get_room dbCheck (pyStrip nameRaw) = some room)
    (hauth : ¬(lowerStr room.creator ≠ lowerStr username ∧ lowerStr username ≠ "admin"))
    (hfail : room_exists dbDelete (pyStrip nameRaw) = false) :
    (handle_delete_room reg dbCheck dbDelete sock username nameRaw).2.2
      = [(sock, .errMsg "Failed to delete room")]
    ∧ (handle_delete_room reg dbCheck dbDelete sock username nameRaw).1
      = reg.map (fun p => if kickMatch (pyStrip nameRaw) p.2
          then (p.1, { p.2 with room := none }) else p) := by
  have hfail2 : (dbDelete.rooms.any (fun r => eqNoCase r.name (pyStrip nameRaw)))
      = false := hfail
  constructor <;> simp [handle_delete_room, hg, hauth, delete_room, hfail2]

theorem C9_delete_room_storage_failure_witness :
    (handle_delete_room [(1, ⟨"bob", "a", some "Chess"⟩), (2, ⟨"carol", "b", some "chess"⟩)]
        ⟨[], [⟨"Chess", "bob", none, "d"⟩], [], 0⟩ ⟨[], [], [], 0⟩ 1 "bob" "Chess").2.2
      = [(1, .errMsg "Failed to delete room")]
    ∧ (handle_delete_room [(1, ⟨"bob", "a", some "Chess"⟩), (2, ⟨"carol", "b", some "chess"⟩)]
        ⟨[], [⟨"Chess", "bob", none, "d"⟩], [], 0⟩ ⟨[], [], [], 0⟩ 1 "bob" "Chess").1
      = [(1, ⟨"bob", "a", none⟩), (2, ⟨"carol", "b", none⟩)] := by
  have h := C9_delete_room_storage_failure
      [(1, ⟨"bob", "a", some "Chess"⟩), (2, ⟨"carol", "b", some "chess"⟩)]
      ⟨[], [⟨"Chess", "bob", none, "d"⟩], [], 0⟩ ⟨[], [], [], 0⟩ 1 "bob" "Chess"
      ⟨"Chess", "bob", none, "d"⟩ (by decide) (by decide) (by decide)
  refine ⟨h.1, ?_⟩
  rw [h.2]
  decide

/-- C4: `get_room_messages` returns `min limit count` rows (so never more
than the limit, and exactly the limit when the room holds more), in ascending
(timestamp, id) order, drawn from the room\x27s rows, and they are the most
recent ones: every room row left out is no newer than any returned row. -/
theorem C4_history_bound (db : DB) (room : String) (k : Nat) :
    (get_room_messages db room k).length
      = min k (db.messages.filter (fun m => eqNoCase m.room_name room)).length
    ∧ List.Sorted (fun a b : MsgRec => msgKey a ≤ msgKey b) (get_room_messages db room k)
    ∧ (∀ m : MsgRec, (get_room_messages db room k).count m
        ≤ (db.messages.filter (fun m => eqNoCase m.room_name room)).count m)
    ∧ (∀ a ∈ get_room_messages db room k,
        ∀ b ∈ db.messages.filter (fun m => eqNoCase m.room_name room),
          b ∉ get_room_messages db room k → msgKey b ≤ msgKey a) := by
  have hperm : List.Perm
      ((db.messages.filter (fun m => eqNoCase m.room_name room)).insertionSort msgDesc)
      (db.messages.filter (fun m => eqNoCase m.room_name room)) :=
    List.perm_insertionSort _ _
  have hsorted : List.Sorted msgDesc
      ((db.messages.filter (fun m => eqNoCase m.room_name room)).insertionSort msgDesc) :=
    List.sorted_insertionSort _ _
  have hout : get_room_messages db room k
      = (((db.messages.filter (fun m => eqNoCase m.room_name room)).insertionSort
          msgDesc).take k).reverse := rfl
  refine ⟨?_, ?_, ?_, ?_⟩
  · rw [hout, List.length_reverse, List.length_take, hperm.length_eq]
  · rw [hout]
    unfold List.Sorted
    rw [List.pairwise_reverse]
    exact List.Pairwise.sublist (List.take_sublist k _) hsorted
  · intro m
    rw [hout, List.count_reverse]
    exact le_trans ((List.take_sublist _ _).count_le m) (le_of_eq (hperm.count_eq m))
  · intro a ha b hb hnotin
    rw [hout, List.mem_reverse] at ha
    have hbtake : b ∉ (((db.messages.filter (fun m => eqNoCase m.room_name room)).insertionSort
        msgDesc).take k) := by
      intro hc
      exact hnotin (by rw [hout]; exact List.mem_reverse.mpr hc)
    have hbsorted : b ∈ ((db.messages.filter (fun m => eqNoCase m.room_name room)).insertionSort
        msgDesc) := hperm.mem_iff.mpr hb
    have hbdrop : b ∈ ((db.messages.filter (fun m => eqNoCase m.room_name room)).insertionSort
        msgDesc).drop k := by
      rw [← List.take_append_drop k ((db.messages.filter
        (fun m => eqNoCase m.room_name room)).insertionSort msgDesc)] at hbsorted
      rcases List.mem_append.mp hbsorted with h | h
      · exact absurd h hbtake
      · exact h
    have hpw : List.Pairwise msgDesc
        ((((db.messages.filter (fun m => eqNoCase m.room_name room)).insertionSort
          msgDesc).take k) ++ (((db.messages.filter
          (fun m => eqNoCase m.room_name room)).insertionSort msgDesc).drop k)) := by
      rw [List.take_append_drop]
      exact hsorted
    exact (List.pairwise_append.mp hpw).2.2 a ha b hbdrop

theorem C4_history_bound_witness :
    (get_room_messages ⟨[], [], [⟨1, "r", "u", "m1", "message", "t1"⟩,
        ⟨2, "R", "u", "m2", "message", "t2"⟩, ⟨3, "r", "u", "m3", "message", "t2"⟩,
        ⟨4, "q", "u", "x", "message", "t9"⟩], 5⟩ "R" 2).length = 2
    ∧ msgKey ⟨1, "r", "u", "m1", "message", "t1"⟩
        ≤ msgKey ⟨3, "r", "u", "m3", "message", "t2"⟩ := by
  have h := C4_history_bound ⟨[], [], [⟨1, "r", "u", "m1", "message", "t1"⟩,
      ⟨2, "R", "u", "m2", "message", "t2"⟩, ⟨3, "r", "u", "m3", "message", "t2"⟩,
      ⟨4, "q", "u", "x", "message", "t9"⟩], 5⟩ "R" 2
  constructor
  · rw [h.1]
    decide
  · exact h.2.2.2 ⟨3, "r", "u", "m3", "message", "t2"⟩ (by decide)
      ⟨1, "r", "u", "m1", "message", "t1"⟩ (by decide) (by decide)

/-- C3: the framing layer is NOT chunking-independent.  The 11 bytes of one
newline-terminated JSON line containing the two-byte UTF-8 character U+00E9
decode to exactly that frame when received as a single chunk, but fed one
byte at a time the chunk holding the lone lead byte 0xC3 fails UTF-8
decoding, the stream is treated as ended and no frame — hence no decoded
message, under any decoder that accepts the line — is ever produced. -/
theorem C3_chunking_divergence :
    recvFrames [] [[0x7B, 0x22, 0x78, 0x22, 0x3A, 0x22, 0xC3, 0xA9, 0x22, 0x7D, 0x0A]]
      = ["\x7b\"x\":\"é\"\x7d".data]
    ∧ recvFrames []
        ([0x7B, 0x22, 0x78, 0x22, 0x3A, 0x22, 0xC3, 0xA9, 0x22, 0x7D, 0x0A].map
          (fun b => [b]))
      = []
    ∧ decodedMessages (fun l => some l)
        [[0x7B, 0x22, 0x78, 0x22, 0x3A, 0x22, 0xC3, 0xA9, 0x22, 0x7D, 0x0A]]
      ≠ decodedMessages (fun l => some l)
        ([0x7B, 0x22, 0x78, 0x22, 0x3A, 0x22, 0xC3, 0xA9, 0x22, 0x7D, 0x0A].map
          (fun b => [b])) := by
  refine ⟨by decide, by decide, by decide⟩
